import Mathlib

/-!
# WildFire_Analysis — verification of the client core

Shallow embedding of the WildFire_Analysis browser client:

* the geometry-to-display-point reducer `extractPointsFromPolygons`
  (map-client component, `src/unnamed/part_003`),
* the severity colour/label maps `getBurnSeverityColor` / `getSeverityLabel`
  (same file),
* the zustand session store `useWildfireStore` (`src/unnamed/part_001`),
* the API client error-message extraction in `analyzeWildfire`
  (`src/unnamed/part_000`),
* the parameter validation of the `/api/analyze-wildfire` route
  (`src/app/api/analyze-wildfire/route.ts`).

JavaScript numbers are modelled as `ℚ` (no NaN/Infinity in the inputs the
claims concern), JSON strings as `String`, absent/`null`/`undefined` fields
as `Option`.
-/

namespace Wildfire

/-! ## GeoJSON data model

A GeoJSON position is an array `[longitude, latitude]`; the code indexes it
as `coord[0]` / `coord[1]`, which we model as a pair whose first component
is index 0 (longitude) and second component is index 1 (latitude). -/

/-- A GeoJSON coordinate array `[longitude, latitude]`:
`.1` is `coord[0]` (longitude), `.2` is `coord[1]` (latitude). -/
abbrev Coord := ℚ × ℚ

/-- `feature.geometry`: the geometry types the reducer branches on
(`Point`, `Polygon`, `MultiPolygon`), plus a constructor for every other
GeoJSON geometry type, which falls through all branches of
`processFeature`. -/
inductive Geometry
  | point (coordinates : Coord)
  | polygon (coordinates : List (List Coord))
  | multiPolygon (coordinates : List (List (List Coord)))
  | other (typeName : String)
deriving Repr, DecidableEq

/-- The feature `properties` bag, as read by the reducer:
`feature.properties?.severity` and `feature.properties?.area`. -/
structure FeatureProperties where
  severity : Option Int
  area : Option ℚ
deriving Repr, DecidableEq

/-- A GeoJSON feature: `geometry` may be `null` (the reducer checks
`if (!feature.geometry) return`), `properties` may be `null`
(the `?.` accesses). -/
structure Feature where
  geometry : Option Geometry
  properties : Option FeatureProperties
deriving Repr, DecidableEq

/-- The top-level GeoJSON document held in `burnSeverityPolygons`: the code
branches on `type === 'FeatureCollection'` and `type === 'Feature'`, any
other `type` falls through. -/
inductive GeoJSON
  | featureCollection (features : List Feature)
  | feature (f : Feature)
  | otherDoc (typeName : String)
deriving Repr, DecidableEq

/-- The reducer's output element (`BurnSeverityPoint` in the source):
`latlng` is a `[latitude, longitude]` pair, `properties` is flattened into
the two fields the source copies out of the feature's bag. -/
structure BurnSeverityPoint where
  latlng : ℚ × ℚ
  severity : Option Int
  area : Option ℚ
deriving Repr, DecidableEq

/-! ## The reducer (`extractPointsFromPolygons`, src/unnamed/part_003) -/

/-- The sampling step of the ring loop:
`Math.max(1, Math.floor(ring.length / 10))`. -/
def stride (n : Nat) : Nat := max 1 (n / 10)

theorem stride_pos (n : Nat) : 0 < stride n := le_max_left 1 (n / 10)

/-- The index sequence of the loop
`for (let i = i0; i < N; i += stride N)`. -/
def sampleIdx (N : Nat) (i : Nat) : List Nat :=
  if i < N then i :: sampleIdx N (i + stride N) else []
termination_by N - i
decreasing_by
  have := stride_pos N
  omega

/-- Ring sampling: the body `const coord = ring[i]` of the loop, run over
the loop's index sequence. Every index produced by `sampleIdx` is in
range, so the `filterMap` drops nothing (proved below). -/
def sampleRing (ring : List Coord) : List Coord :=
  (sampleIdx ring.length 0).filterMap (fun i => ring.get? i)

/-- `feature.properties?.severity` / `feature.properties?.area`. -/
def propsOf (f : Feature) : Option Int × Option ℚ :=
  match f.properties with
  | some p => (p.severity, p.area)
  | none => (none, none)

/-- `processFeature`: one `BurnSeverityPoint` per `Point`, stride-sampled
ring vertices for `Polygon` and `MultiPolygon` (with the `[lon,lat] →
[lat,lon]` swap `latlng: [coord[1], coord[0]]`), nothing otherwise. -/
def processFeature (f : Feature) : List BurnSeverityPoint :=
  match f.geometry with
  | none => []
  | some (.point c) =>
      [{ latlng := (c.2, c.1), severity := (propsOf f).1, area := (propsOf f).2 }]
  | some (.polygon rings) =>
      rings.flatMap fun ring =>
        (sampleRing ring).map fun c =>
          { latlng := (c.2, c.1), severity := (propsOf f).1, area := (propsOf f).2 }
  | some (.multiPolygon polys) =>
      polys.flatMap fun polygon =>
        polygon.flatMap fun ring =>
          (sampleRing ring).map fun c =>
            { latlng := (c.2, c.1), severity := (propsOf f).1, area := (propsOf f).2 }
  | some (.other _) => []

/-- `extractPointsFromPolygons`: `[]` on `null` input
(`if (!burnSeverityPolygons) return []`), otherwise all features of a
`FeatureCollection`, a single `Feature`, or nothing. -/
def extractPointsFromPolygons (g : Option GeoJSON) : List BurnSeverityPoint :=
  match g with
  | none => []
  | some (.featureCollection fs) => fs.flatMap processFeature
  | some (.feature f) => processFeature f
  | some (.otherDoc _) => []

/-! ## Severity colour/label maps (src/unnamed/part_003) -/

/-- `getBurnSeverityColor`: the `switch (severity)` over cases 1–5 with a
`default`. -/
def getBurnSeverityColor (severity : Int) : String :=
  if severity = 1 then "#69B34C"
  else if severity = 2 then "#FAB733"
  else if severity = 3 then "#FF8E15"
  else if severity = 4 then "#FF4E11"
  else if severity = 5 then "#FF0D0D"
  else "#CCCCCC"

/-- `getSeverityLabel`: the `switch (severity)` over cases 1–5 with a
`default`. -/
def getSeverityLabel (severity : Int) : String :=
  if severity = 1 then "Low"
  else if severity = 2 then "Moderate"
  else if severity = 3 then "High"
  else if severity = 4 then "Very High"
  else if severity = 5 then "Extreme"
  else "Unknown"

/-! ## Session store (`useWildfireStore`, src/unnamed/part_001) -/

/-- `Location` as in the store interface. -/
structure Location where
  latitude : ℚ
  longitude : ℚ
deriving Repr, DecidableEq

/-- The `burnSeverityStats` record of `AnalysisResults`. -/
structure BurnSeverityStats where
  low : ℚ
  moderate : ℚ
  high : ℚ
  veryHigh : ℚ
  extreme : ℚ
deriving Repr, DecidableEq

/-- The `nbrStats` record of `AnalysisResults`. -/
structure NbrStats where
  preFireAvg : ℚ
  postFireAvg : ℚ
  dNBRAvg : ℚ
  dNBRMax : ℚ
deriving Repr, DecidableEq

/-- The `images` record of `AnalysisResults`. -/
structure Images where
  preFireImage : String
  postFireImage : String
  preFireNBR : String
  postFireNBR : String
  dNBR : String
  burnSeverity : String
  burnSeverityLegend : String
deriving Repr, DecidableEq

/-- The `AnalysisResults` interface of the store (src/unnamed/part_001);
`burnSeverityPolygons`, `status` and `timestamp` are optional. -/
structure AnalysisResults where
  location : Location
  preFireDate : String
  postFireDate : String
  dataSource : String
  totalBurnedArea : ℚ
  burnSeverityStats : BurnSeverityStats
  nbrStats : NbrStats
  images : Images
  burnSeverityPolygons : Option GeoJSON
  status : Option String
  timestamp : Option String
deriving Repr, DecidableEq

/-- The store's `visibleLayers` record. -/
structure VisibleLayers where
  burnSeverity : Bool
deriving Repr, DecidableEq

/-- The mutable state of `useWildfireStore`: the fields the `create`
initializer declares (functions excluded). -/
structure SessionState where
  selectedLocation : Option Location
  analysisResults : Option AnalysisResults
  burnSeverityPolygons : Option GeoJSON
  isLoading : Bool
  error : Option String
  visibleLayers : VisibleLayers
deriving Repr, DecidableEq

/-- The store's initial state: `selectedLocation: null`,
`analysisResults: null`, `burnSeverityPolygons: null`, `isLoading: false`,
`error: null`, `visibleLayers: \x7b burnSeverity: true \x7d`. -/
def initialState : SessionState :=
  { selectedLocation := none, analysisResults := none,
    burnSeverityPolygons := none, isLoading := false, error := none,
    visibleLayers := { burnSeverity := true } }

/-- The spec's abstract `status` field (§3 SessionState), as realised by
the store's flags: the UI shows the running indicator iff `isLoading`, the
error banner iff `error` is set, and results iff `analysisResults` is set.
Modelled from the spec: the code has no `status` field; the refinement map
is `Running` while a request is in flight, else `Failed` when an error
message is present, else `Succeeded` when a result is present, else
`Idle`. -/
inductive Status
  | Idle
  | Running
  | Succeeded
  | Failed
deriving Repr, DecidableEq

/-- The refinement map from the store's flags to the spec's `status`. -/
def SessionState.status (s : SessionState) : Status :=
  if s.isLoading then .Running
  else if s.error.isSome then .Failed
  else if s.analysisResults.isSome then .Succeeded
  else .Idle

/-- `setSelectedLocation(location)`: sets the location and clears
`analysisResults`, `burnSeverityPolygons` and `error`. (It does not touch
`isLoading` or `visibleLayers`.) -/
def setSelectedLocation (location : Location) (s : SessionState) : SessionState :=
  { s with
    selectedLocation := some location,
    analysisResults := none,
    burnSeverityPolygons := none,
    error := none }

/-- `toggleLayerVisibility("burnSeverity")`: flips the flag. -/
def toggleLayerVisibility (s : SessionState) : SessionState :=
  { s with visibleLayers := { burnSeverity := !s.visibleLayers.burnSeverity } }

/-- The outcome of `await analyzeWildfire(params)` as seen by
`runAnalysis`'s `try`/`catch`: a result, or a thrown `Error` whose
`.message` the catch block stores. -/
inductive ClientOutcome
  | ok (results : AnalysisResults)
  | error (message : String)
deriving Repr, DecidableEq

/-- First half of `runAnalysis`: `set(\x7b isLoading: true, error: null \x7d)`. -/
def runAnalysisStart (s : SessionState) : SessionState :=
  { s with isLoading := true, error := none }

/-- Second half of `runAnalysis`: on success store the results and
`results.burnSeverityPolygons || null`, on a caught error store
`error.message` — either way `isLoading: false`. -/
def runAnalysisFinish (outcome : ClientOutcome) (s : SessionState) : SessionState :=
  match outcome with
  | .ok results =>
      { s with
        analysisResults := some results,
        burnSeverityPolygons := results.burnSeverityPolygons,
        isLoading := false }
  | .error message =>
      { s with error := some message, isLoading := false }

/-- A complete `runAnalysis(params)` call whose awaited client call ends
with `outcome`, with no interleaved store updates. -/
def runAnalysis (outcome : ClientOutcome) (s : SessionState) : SessionState :=
  runAnalysisFinish outcome (runAnalysisStart s)

/-- `clearAnalysis()`: clears `analysisResults`, `burnSeverityPolygons` and
`error`. (It does not touch `selectedLocation`, `isLoading` or
`visibleLayers`.) -/
def clearAnalysis (s : SessionState) : SessionState :=
  { s with
    analysisResults := none,
    burnSeverityPolygons := none,
    error := none }

/-- `handleUseMockData` (src/components/analysis-panel.tsx): a no-op when
no location is selected (`if (!selectedLocation) return`); otherwise
`useWildfireStore.setState` with the mock results, their polygons,
`error: null` and `isLoading: false`. `mockResults` stands for the value
`getMockAnalysisResults(...)` returns for the selected location and
dates. -/
def handleUseMockData (mockResults : AnalysisResults) (s : SessionState) :
    SessionState :=
  if s.selectedLocation = none then s
  else
    { s with
      analysisResults := some mockResults,
      burnSeverityPolygons := mockResults.burnSeverityPolygons,
      error := none,
      isLoading := false }

/-! ## API client error extraction (`analyzeWildfire`, src/unnamed/part_000)

For a non-ok response the client builds an error message from the response.
The effectful body reads are modelled by their outcomes: `jsonBody` is the
outcome of `await response.json()` (`none` = the promise rejected;
`some none` = valid JSON without an `error` field; `some (some e)` = valid
JSON whose `error` field is the string `e`), and `textBody` is the outcome
of `await response.text()` (`none` = rejected). -/

/-- The `errorMessage` computed by `analyzeWildfire` for a non-ok response,
thrown as `new Error(errorMessage)`. -/
def clientErrorMessage (status : Nat) (statusText : String)
    (jsonBody : Option (Option String)) (textBody : Option String) : String :=
  let generic := "Server error: " ++ toString status ++ " " ++ statusText
  match jsonBody with
  | some (some e) => e
  | some none => generic
  | none =>
      match textBody with
      | some t => "Server error: " ++ t.take 200 ++ "..."
      | none => generic

/-! ## Route validation (`POST`, src/app/api/analyze-wildfire/route.ts)

The request body's fields, as destructured by the route. A numeric field is
`none` when absent (destructures to `undefined`), `some q` when a JSON
number; a date field is `none` when absent, `some s` when a string. -/

/-- The destructured request body. -/
structure RequestBody where
  latitude : Option ℚ
  longitude : Option ℚ
  preFireDate : Option String
  postFireDate : Option String
  bufferKm : Option ℚ
deriving Repr, DecidableEq

/-- JavaScript falsiness of a number-or-undefined value: `undefined` and
`0` are falsy (NaN, which is also falsy, is outside the `ℚ` model). -/
def numFalsy : Option ℚ → Bool
  | none => true
  | some q => q = 0

/-- JavaScript falsiness of a string-or-undefined value: `undefined` and
the empty string are falsy. -/
def strFalsy : Option String → Bool
  | none => true
  | some s => s = ""

/-- The validation gate
`if (!latitude || !longitude || !preFireDate || !postFireDate)`: `some msg`
means the route answers `400 \x7b error: msg \x7d` and stops; `none` means it
proceeds past validation. -/
def validateParams (b : RequestBody) : Option String :=
  if numFalsy b.latitude || numFalsy b.longitude
      || strFalsy b.preFireDate || strFalsy b.postFireDate then
    some "Missing required parameters"
  else
    none

/-- The mock fixture `mockAnalysisResults` of `src/lib/mock-data.ts`
(no `burnSeverityPolygons`, `status` or `timestamp` field). -/
def mockAnalysisResults : AnalysisResults :=
  { location := { latitude := 37.7749, longitude := -122.4194 },
    preFireDate := "2023-06-01",
    postFireDate := "2023-08-01",
    dataSource := "Sentinel-2",
    totalBurnedArea := 42.75,
    burnSeverityStats :=
      { low := 12.5, moderate := 15.3, high := 8.7, veryHigh := 4.2,
        extreme := 2.05 },
    nbrStats :=
      { preFireAvg := 0.412, postFireAvg := 0.187, dNBRAvg := 0.225,
        dNBRMax := 0.687 },
    images :=
      { preFireImage := "/placeholder.svg?height=400&width=600",
        postFireImage := "/placeholder.svg?height=400&width=600",
        preFireNBR := "/placeholder.svg?height=400&width=600",
        postFireNBR := "/placeholder.svg?height=400&width=600",
        dNBR := "/placeholder.svg?height=400&width=600",
        burnSeverity := "/placeholder.svg?height=400&width=600",
        burnSeverityLegend := "/placeholder.svg?height=100&width=400" },
    burnSeverityPolygons := none,
    status := none,
    timestamp := none }

/-! ## Lemmas on the ring-sampling loop -/

/-- The loop `for (i = i0; i < N; i += s)` visits the arithmetic
progression `i0, i0 + s, …` and stops strictly below `N`:
`⌈(N - i0) / s⌉ = (N - i0 - 1) / s + 1` iterations when `i0 < N`. -/
theorem sampleIdx_of_lt (N i : Nat) (h : i < N) :
    sampleIdx N i
      = List.range' i ((N - i - 1) / stride N + 1) (stride N) := by
  rw [sampleIdx, if_pos h]
  by_cases h2 : i + stride N < N
  · rw [sampleIdx_of_lt N (i + stride N) h2]
    have hs := stride_pos N
    have key : (N - i - 1) / stride N + 1
        = ((N - (i + stride N) - 1) / stride N + 1) + 1 := by
      have e : N - i - 1 = (N - (i + stride N) - 1) + stride N := by omega
      rw [e, Nat.add_div_right _ hs]
    rw [key]
    conv_rhs => rw [List.range'_succ]
  · rw [sampleIdx, if_neg h2]
    have hs := stride_pos N
    have e : (N - i - 1) / stride N = 0 := Nat.div_eq_of_lt (by omega)
    rw [e, List.range'_succ]
    rfl
termination_by N - i
decreasing_by
  have := stride_pos N
  omega

/-- Every index the loop visits is in range. -/
theorem mem_sampleIdx_lt (N i x : Nat) (hx : x ∈ sampleIdx N i) : x < N := by
  rw [sampleIdx] at hx
  by_cases h : i < N
  · rw [if_pos h] at hx
    rcases List.mem_cons.mp hx with rfl | hx'
    · exact h
    · exact mem_sampleIdx_lt N (i + stride N) x hx'
  · rw [if_neg h] at hx
    cases hx
termination_by N - i
decreasing_by
  have := stride_pos N
  omega

/-- Looking up in-range indices drops nothing. -/
theorem length_filterMap_get (ring : List Coord) (idxs : List Nat)
    (h : ∀ i ∈ idxs, i < ring.length) :
    (idxs.filterMap (fun i => ring.get? i)).length = idxs.length := by
  induction idxs with
  | nil => rfl
  | cons a l ih =>
    have ha : a < ring.length := h a (List.mem_cons_self a l)
    rw [List.filterMap_cons, List.get?_eq_get ha]
    simpa using ih (fun i hi => h i (List.mem_cons_of_mem a hi))

/-- Sample count of a non-empty ring, in floor form. -/
theorem sampleRing_length (ring : List Coord) (h : 0 < ring.length) :
    (sampleRing ring).length
      = (ring.length - 1) / stride ring.length + 1 := by
  rw [sampleRing,
    length_filterMap_get _ _ (fun i hi => mem_sampleIdx_lt _ _ i hi),
    sampleIdx_of_lt _ _ h, List.length_range', Nat.sub_zero]

/-- `⌈N / s⌉` in floor form: `(N - 1) / s + 1 = (N + s - 1) / s` for
`0 < N`, `0 < s`. -/
theorem ceil_div_eq (N s : Nat) (hN : 0 < N) (hs : 0 < s) :
    (N - 1) / s + 1 = (N + s - 1) / s := by
  have e : N + s - 1 = (N - 1) + s := by omega
  rw [e, Nat.add_div_right _ hs]

/-- For rings of at most ten vertices the stride is 1. -/
theorem stride_eq_one (N : Nat) (h : N ≤ 10) : stride N = 1 := by
  unfold stride
  omega

/-- Looking up every index below `n` gives the first `n` elements. -/
theorem filterMap_get_range (l : List Coord) (n : Nat) :
    (List.range n).filterMap (fun i => l.get? i) = l.take n := by
  induction n with
  | zero => rfl
  | succ n ih =>
    rw [List.range_succ, List.filterMap_append, ih, List.take_succ]
    cases h : l[n]? <;>
      simp [List.filterMap_cons, List.get?_eq_getElem?, h]

/-- Rings of at most ten vertices are emitted whole. -/
theorem sampleRing_of_le_ten (ring : List Coord) (h0 : 0 < ring.length)
    (h10 : ring.length ≤ 10) : sampleRing ring = ring := by
  rw [sampleRing, sampleIdx_of_lt _ _ h0, stride_eq_one _ h10]
  have e : (ring.length - 0 - 1) / 1 + 1 = ring.length := by omega
  rw [e, ← List.range_eq_range', filterMap_get_range, List.take_length]

/-- Sampling picks vertices of the ring. -/
theorem mem_of_mem_sampleRing (ring : List Coord) (c : Coord)
    (hc : c ∈ sampleRing ring) : c ∈ ring := by
  rw [sampleRing] at hc
  rcases List.mem_filterMap.mp hc with ⟨i, _, hi⟩
  exact List.get?_mem hi

/-- All coordinates of a geometry, in feature order. -/
def coordsOf : Geometry → List Coord
  | .point c => [c]
  | .polygon rings => rings.flatMap id
  | .multiPolygon polys => polys.flatMap fun polygon => polygon.flatMap id
  | .other _ => []

/-! ## Claims about the reducer -/

/-- C1: for every ring of length `N > 0` of a `Polygon` (and of every
constituent polygon of a `MultiPolygon`), the reducer samples at the fixed
stride `max(1, ⌊N / 10⌋)`, visiting indices `0, stride, 2·stride, …` while
the index is `< N` (no wrap-around), so it emits exactly
`⌈N / max(1, ⌊N / 10⌋)⌉ = (N + stride - 1) / stride` display points for
that ring, never more than `N`; for `N ≤ 10` every vertex of the ring is
emitted. The last two conjuncts tie the per-ring counts to
`processFeature` on `Polygon` and `MultiPolygon` features. -/
theorem C1_ring_sampling
    (rings : List (List Coord)) (polys : List (List (List Coord)))
    (props : Option FeatureProperties) (ring : List Coord)
    (hN : 0 < ring.length) :
    sampleIdx ring.length 0
        = List.range' 0
            ((ring.length + stride ring.length - 1) / stride ring.length)
            (stride ring.length)
    ∧ (sampleRing ring).length
        = (ring.length + stride ring.length - 1) / stride ring.length
    ∧ (sampleRing ring).length ≤ ring.length
    ∧ (ring.length ≤ 10 → sampleRing ring = ring)
    ∧ (processFeature
          { geometry := some (.polygon rings), properties := props }).length
        = (rings.map fun r => (sampleRing r).length).sum
    ∧ (processFeature
          { geometry := some (.multiPolygon polys), properties := props }).length
        = (polys.map fun polygon =>
            (polygon.map fun r => (sampleRing r).length).sum).sum := by
  have hs := stride_pos ring.length
  have hceil := ceil_div_eq ring.length (stride ring.length) hN hs
  refine ⟨?_, ?_, ?_, fun h10 => sampleRing_of_le_ten ring hN h10, ?_, ?_⟩
  · rw [sampleIdx_of_lt _ _ hN, Nat.sub_zero, hceil]
  · rw [sampleRing_length ring hN, hceil]
  · rw [sampleRing_length ring hN]
    have := Nat.div_le_self (ring.length - 1) (stride ring.length)
    omega
  · simp [processFeature, List.length_flatMap, Function.comp_def]
  · simp [processFeature, List.length_flatMap, Function.comp_def]

/-- Witness ring for C1 (three vertices, so stride 1). -/
def witnessRing : List Coord := [(1, 2), (3, 4), (5, 6)]

/-- C1 applied to a concrete three-vertex ring. -/
theorem C1_ring_sampling_witness :
    0 < witnessRing.length
    ∧ (sampleIdx witnessRing.length 0
          = List.range' 0
              ((witnessRing.length + stride witnessRing.length - 1)
                / stride witnessRing.length)
              (stride witnessRing.length)
      ∧ (sampleRing witnessRing).length
          = (witnessRing.length + stride witnessRing.length - 1)
              / stride witnessRing.length
      ∧ (sampleRing witnessRing).length ≤ witnessRing.length
      ∧ (witnessRing.length ≤ 10 → sampleRing witnessRing = witnessRing)
      ∧ (processFeature
            { geometry := some (.polygon [witnessRing]),
              properties := none }).length
          = ([witnessRing].map fun r => (sampleRing r).length).sum
      ∧ (processFeature
            { geometry := some (.multiPolygon [[witnessRing]]),
              properties := none }).length
          = ([[witnessRing]].map fun polygon =>
              (polygon.map fun r => (sampleRing r).length).sum).sum) :=
  ⟨by decide,
    C1_ring_sampling [witnessRing] [[witnessRing]] none witnessRing (by decide)⟩

/-- C2: every display point the reducer emits carries the axis swap: read
back as `[longitude, latitude]` (swapping its `latlng` components back),
it is one of the geometry's input coordinates; and the concrete input
`[10, 20]` yields `latlng = [20, 10]`, i.e. latitude 20 and
longitude 10. -/
theorem C2_axis_swap (g : Geometry) (props : Option FeatureProperties)
    (p : BurnSeverityPoint)
    (hp : p ∈ processFeature { geometry := some g, properties := props }) :
    (p.latlng.2, p.latlng.1) ∈ coordsOf g
    ∧ processFeature
        { geometry := some (.point (10, 20)), properties := none }
        = [{ latlng := (20, 10), severity := none, area := none }] := by
  refine ⟨?_, rfl⟩
  cases g with
  | point c =>
    simp only [processFeature, List.mem_singleton] at hp
    subst hp
    simp [coordsOf]
  | polygon rings =>
    simp only [processFeature, List.mem_flatMap, List.mem_map] at hp
    obtain ⟨ring, hring, c, hc, rfl⟩ := hp
    simp only [coordsOf, List.mem_flatMap, id]
    exact ⟨ring, hring, by simpa using mem_of_mem_sampleRing ring c hc⟩
  | multiPolygon polys =>
    simp only [processFeature, List.mem_flatMap, List.mem_map] at hp
    obtain ⟨polygon, hpoly, ring, hring, c, hc, rfl⟩ := hp
    simp only [coordsOf, List.mem_flatMap, id]
    exact ⟨polygon, hpoly, ring, hring,
      by simpa using mem_of_mem_sampleRing ring c hc⟩
  | other t =>
    simp [processFeature] at hp

/-- C2 applied to the concrete point `[10, 20]`. -/
theorem C2_axis_swap_witness :
    ({ latlng := ((20 : ℚ), (10 : ℚ)), severity := none, area := none }
        ∈ processFeature
          { geometry := some (.point (10, 20)), properties := none })
    ∧ ((((20 : ℚ), (10 : ℚ)) : ℚ × ℚ).2,
        (((20 : ℚ), (10 : ℚ)) : ℚ × ℚ).1) ∈ coordsOf (.point (10, 20))
    ∧ processFeature
        { geometry := some (.point (10, 20)), properties := none }
        = [{ latlng := (20, 10), severity := none, area := none }] := by
  refine ⟨List.mem_singleton.mpr rfl, ?_⟩
  exact C2_axis_swap (.point (10, 20)) none
    { latlng := (20, 10), severity := none, area := none }
    (List.mem_singleton.mpr rfl)

/-- C6: the severity-to-colour and severity-to-label maps are total pure
functions on the integers: 1 ↦ Low/#69B34C, 2 ↦ Moderate/#FAB733,
3 ↦ High/#FF8E15, 4 ↦ Very High/#FF4E11, 5 ↦ Extreme/#FF0D0D, and every
other integer maps to Unknown/#CCCCCC. -/
theorem C6_severity_maps (n : Int) (hn : n ∉ ([1, 2, 3, 4, 5] : List Int)) :
    getBurnSeverityColor 1 = "#69B34C" ∧ getSeverityLabel 1 = "Low"
    ∧ getBurnSeverityColor 2 = "#FAB733" ∧ getSeverityLabel 2 = "Moderate"
    ∧ getBurnSeverityColor 3 = "#FF8E15" ∧ getSeverityLabel 3 = "High"
    ∧ getBurnSeverityColor 4 = "#FF4E11" ∧ getSeverityLabel 4 = "Very High"
    ∧ getBurnSeverityColor 5 = "#FF0D0D" ∧ getSeverityLabel 5 = "Extreme"
    ∧ getBurnSeverityColor n = "#CCCCCC" ∧ getSeverityLabel n = "Unknown" := by
  simp only [List.mem_cons, List.mem_singleton, not_or] at hn
  obtain ⟨h1, h2, h3, h4, h5⟩ := hn
  refine ⟨by decide, by decide, by decide, by decide, by decide, by decide,
    by decide, by decide, by decide, by decide, ?_, ?_⟩
  · simp [getBurnSeverityColor, h1, h2, h3, h4, h5]
  · simp [getSeverityLabel, h1, h2, h3, h4, h5]

/-- C6 applied to the out-of-range severity 0. -/
theorem C6_severity_maps_witness :
    ((0 : Int) ∉ ([1, 2, 3, 4, 5] : List Int))
    ∧ (getBurnSeverityColor 1 = "#69B34C" ∧ getSeverityLabel 1 = "Low"
      ∧ getBurnSeverityColor 2 = "#FAB733" ∧ getSeverityLabel 2 = "Moderate"
      ∧ getBurnSeverityColor 3 = "#FF8E15" ∧ getSeverityLabel 3 = "High"
      ∧ getBurnSeverityColor 4 = "#FF4E11" ∧ getSeverityLabel 4 = "Very High"
      ∧ getBurnSeverityColor 5 = "#FF0D0D" ∧ getSeverityLabel 5 = "Extreme"
      ∧ getBurnSeverityColor 0 = "#CCCCCC"
      ∧ getSeverityLabel 0 = "Unknown") :=
  ⟨by decide, C6_severity_maps 0 (by decide)⟩

/-- C7: the reducer is total and error-free on degenerate input: `null`
input, an empty feature collection, and documents of unknown type give the
empty sequence, and a feature with absent geometry or an unsupported
geometry type contributes no display points. -/
theorem C7_degenerate_inputs :
    extractPointsFromPolygons none = []
    ∧ extractPointsFromPolygons (some (.featureCollection [])) = []
    ∧ (∀ props, processFeature { geometry := none, properties := props } = [])
    ∧ (∀ t props,
        processFeature { geometry := some (.other t), properties := props }
          = [])
    ∧ (∀ t, extractPointsFromPolygons (some (.otherDoc t)) = []) :=
  ⟨rfl, rfl, fun _ => rfl, fun _ _ => rfl, fun _ => rfl⟩

/-! ## Claims about the session store -/

/-- C3: a failing `runAnalysis` ends with status `Failed` and
`errorMessage` equal to the failure's message, while the stored result is
unchanged: whatever result the session held before the failing call, it
still holds afterwards. -/
theorem C3_failure_keeps_result (s : SessionState) (msg : String) :
    (runAnalysis (.error msg) s).status = Status.Failed
    ∧ (runAnalysis (.error msg) s).error = some msg
    ∧ (runAnalysis (.error msg) s).analysisResults = s.analysisResults := by
  refine ⟨?_, rfl, rfl⟩
  simp [runAnalysis, runAnalysisStart, runAnalysisFinish, SessionState.status]

/-- C4 as stated is false: `setSelectedLocation` does not touch
`isLoading`, so from a state with an analysis in flight (status `Running`)
the status stays `Running` instead of being forced to `Idle`. -/
theorem C4_counterexample :
    (setSelectedLocation { latitude := 1, longitude := 2 }
        { initialState with isLoading := true }).status = Status.Running
    ∧ (setSelectedLocation { latitude := 1, longitude := 2 }
        { initialState with isLoading := true }).status ≠ Status.Idle := by
  constructor <;> decide

/-- C4 amended: `selectLocation(loc)` always sets `selectedLocation = loc`
and clears the result and the error message, and it leaves `isLoading`
unchanged; hence the status returns to `Idle` exactly when no analysis is
in flight (`isLoading = false`), while a mid-flight analysis keeps the
status at `Running`. -/
theorem C4_selectLocation (s : SessionState) (loc : Location)
    (h : s.isLoading = false) :
    (setSelectedLocation loc s).selectedLocation = some loc
    ∧ (setSelectedLocation loc s).analysisResults = none
    ∧ (setSelectedLocation loc s).error = none
    ∧ (setSelectedLocation loc s).isLoading = s.isLoading
    ∧ (setSelectedLocation loc s).status = Status.Idle := by
  refine ⟨rfl, rfl, rfl, rfl, ?_⟩
  simp [setSelectedLocation, SessionState.status, h]

/-- C4 amended, applied to the initial state. -/
theorem C4_selectLocation_witness :
    initialState.isLoading = false
    ∧ ((setSelectedLocation { latitude := 1, longitude := 2 }
          initialState).selectedLocation
          = some { latitude := 1, longitude := 2 }
      ∧ (setSelectedLocation { latitude := 1, longitude := 2 }
          initialState).analysisResults = none
      ∧ (setSelectedLocation { latitude := 1, longitude := 2 }
          initialState).error = none
      ∧ (setSelectedLocation { latitude := 1, longitude := 2 }
          initialState).isLoading = initialState.isLoading
      ∧ (setSelectedLocation { latitude := 1, longitude := 2 }
          initialState).status = Status.Idle) :=
  ⟨rfl, C4_selectLocation initialState { latitude := 1, longitude := 2 } rfl⟩

/-- C8 as stated is false: `clearAnalysis` does not touch `isLoading`, so
from a state with an analysis in flight the status stays `Running` instead
of being reset to `Idle`. -/
theorem C8_counterexample :
    (clearAnalysis { initialState with isLoading := true }).status
      = Status.Running
    ∧ (clearAnalysis { initialState with isLoading := true }).status
      ≠ Status.Idle := by
  constructor <;> decide

/-- C8 amended: `clear()` always resets the result and the error message
to none and leaves `selectedLocation` and `isLoading` unchanged; the
status is reset to `Idle` exactly when no analysis is in flight
(`isLoading = false`). -/
theorem C8_clear (s : SessionState) (h : s.isLoading = false) :
    (clearAnalysis s).analysisResults = none
    ∧ (clearAnalysis s).error = none
    ∧ (clearAnalysis s).selectedLocation = s.selectedLocation
    ∧ (clearAnalysis s).isLoading = s.isLoading
    ∧ (clearAnalysis s).status = Status.Idle := by
  refine ⟨rfl, rfl, rfl, rfl, ?_⟩
  simp [clearAnalysis, SessionState.status, h]

/-- C8 amended, applied to a succeeded state. -/
theorem C8_clear_witness :
    ({ initialState with
        analysisResults := some mockAnalysisResults } : SessionState).isLoading
      = false
    ∧ ((clearAnalysis { initialState with
          analysisResults := some mockAnalysisResults }).analysisResults = none
      ∧ (clearAnalysis { initialState with
          analysisResults := some mockAnalysisResults }).error = none
      ∧ (clearAnalysis { initialState with
          analysisResults := some mockAnalysisResults }).selectedLocation
          = ({ initialState with
              analysisResults := some mockAnalysisResults } :
                SessionState).selectedLocation
      ∧ (clearAnalysis { initialState with
          analysisResults := some mockAnalysisResults }).isLoading
          = ({ initialState with
              analysisResults := some mockAnalysisResults } :
                SessionState).isLoading
      ∧ (clearAnalysis { initialState with
          analysisResults := some mockAnalysisResults }).status
          = Status.Idle) :=
  ⟨rfl, C8_clear { initialState with
      analysisResults := some mockAnalysisResults } rfl⟩

/-- C9 as stated is false: `handleUseMockData` begins with
`if (!selectedLocation) return`, so from a state with no selected location
it is a no-op — the status does not become `Succeeded` and the mock result
is not stored. -/
theorem C9_counterexample :
    handleUseMockData mockAnalysisResults initialState = initialState
    ∧ (handleUseMockData mockAnalysisResults initialState).analysisResults
      ≠ some mockAnalysisResults
    ∧ (handleUseMockData mockAnalysisResults initialState).status
      ≠ Status.Succeeded := by
  refine ⟨rfl, ?_, ?_⟩ <;> simp [handleUseMockData, initialState,
    SessionState.status]

/-- C9 amended: whenever a location is selected, `useMockResult` sets
status `Succeeded` and stores the fixed result immediately, without
invoking `AnalysisClient`, clearing the error and the loading flag and
leaving `selectedLocation` unchanged; with no selected location the call
is a no-op. -/
theorem C9_useMockResult (s : SessionState) (M : AnalysisResults)
    (loc : Location) (h : s.selectedLocation = some loc) :
    (handleUseMockData M s).status = Status.Succeeded
    ∧ (handleUseMockData M s).analysisResults = some M
    ∧ (handleUseMockData M s).selectedLocation = s.selectedLocation
    ∧ (handleUseMockData M s).error = none
    ∧ (handleUseMockData M s).isLoading = false := by
  have hne : ¬ s.selectedLocation = none := by rw [h]; simp
  refine ⟨?_, ?_, ?_, ?_, ?_⟩ <;>
    simp [handleUseMockData, hne, SessionState.status]

/-- C9 amended, applied to a state with a selected location. -/
theorem C9_useMockResult_witness :
    ({ initialState with
        selectedLocation := some { latitude := 1, longitude := 2 } } :
          SessionState).selectedLocation
      = some { latitude := 1, longitude := 2 }
    ∧ ((handleUseMockData mockAnalysisResults
          { initialState with
            selectedLocation :=
              some { latitude := 1, longitude := 2 } }).status
          = Status.Succeeded
      ∧ (handleUseMockData mockAnalysisResults
          { initialState with
            selectedLocation :=
              some { latitude := 1, longitude := 2 } }).analysisResults
          = some mockAnalysisResults
      ∧ (handleUseMockData mockAnalysisResults
          { initialState with
            selectedLocation :=
              some { latitude := 1, longitude := 2 } }).selectedLocation
          = ({ initialState with
              selectedLocation := some { latitude := 1, longitude := 2 } } :
                SessionState).selectedLocation
      ∧ (handleUseMockData mockAnalysisResults
          { initialState with
            selectedLocation :=
              some { latitude := 1, longitude := 2 } }).error = none
      ∧ (handleUseMockData mockAnalysisResults
          { initialState with
            selectedLocation :=
              some { latitude := 1, longitude := 2 } }).isLoading = false) :=
  ⟨rfl, C9_useMockResult
    { initialState with
      selectedLocation := some { latitude := 1, longitude := 2 } }
    mockAnalysisResults { latitude := 1, longitude := 2 } rfl⟩

/-! ## Claims about the API client and the route -/

set_option maxRecDepth 8000 in
/-- C5 as stated is false: for a non-ok response whose body is valid JSON
without an `error` field (here the JSON array `[1,2,3]`), the client uses
the generic status-code message, not the text fallback with the first 200
characters of the raw body that the claim's tier ordering mandates. -/
theorem C5_counterexample :
    clientErrorMessage 500 "Internal Server Error" (some none)
        (some "[1,2,3]")
      = "Server error: 500 Internal Server Error"
    ∧ clientErrorMessage 500 "Internal Server Error" (some none)
        (some "[1,2,3]")
      ≠ "Server error: " ++ String.take "[1,2,3]" 200 ++ "..." := by
  constructor <;> decide

/-- C5 amended: the client derives the error message of a non-success
response by a three-tier fallback and never crashes: if the body parses as
JSON, the message is its `error` field when present and otherwise the
generic status-code message; if the body is not valid JSON, the message
contains the first 200 characters of the raw body when the body can be
read as text, and otherwise is the generic status-code message; in all
cases `submit` fails with that message rather than throwing an
unclassified parse error. -/
theorem C5_error_message_tiers (st : Nat) (stx : String)
    (jsonBody : Option (Option String)) (textBody : Option String)
    (e t : String) :
    (jsonBody = some (some e) →
      clientErrorMessage st stx jsonBody textBody = e)
    ∧ (jsonBody = some none →
      clientErrorMessage st stx jsonBody textBody
        = "Server error: " ++ toString st ++ " " ++ stx)
    ∧ (jsonBody = none → textBody = some t →
      clientErrorMessage st stx jsonBody textBody
        = "Server error: " ++ t.take 200 ++ "...")
    ∧ (jsonBody = none → textBody = none →
      clientErrorMessage st stx jsonBody textBody
        = "Server error: " ++ toString st ++ " " ++ stx) := by
  refine ⟨?_, ?_, ?_, ?_⟩
  · rintro rfl; rfl
  · rintro rfl; rfl
  · rintro rfl rfl; rfl
  · rintro rfl rfl; rfl

/-- C10: the route rejects a request with a 400 "Missing required
parameters" error exactly when one of `latitude`, `longitude`,
`preFireDate`, `postFireDate` is falsy; in particular a request with the
valid coordinate `latitude = 0` (or `longitude = 0`) is rejected exactly
as if the field were absent. -/
theorem C10_falsy_validation (b : RequestBody) (lo : Option ℚ)
    (p q : Option String) (bk : Option ℚ) :
    (validateParams b = some "Missing required parameters"
      ↔ (numFalsy b.latitude || numFalsy b.longitude
          || strFalsy b.preFireDate || strFalsy b.postFireDate) = true)
    ∧ validateParams
        { latitude := some 0, longitude := lo, preFireDate := p,
          postFireDate := q, bufferKm := bk }
      = validateParams
        { latitude := none, longitude := lo, preFireDate := p,
          postFireDate := q, bufferKm := bk }
    ∧ validateParams
        { latitude := lo, longitude := some 0, preFireDate := p,
          postFireDate := q, bufferKm := bk }
      = validateParams
        { latitude := lo, longitude := none, preFireDate := p,
          postFireDate := q, bufferKm := bk }
    ∧ validateParams
        { latitude := some 0, longitude := some 10,
          preFireDate := some "2023-06-01",
          postFireDate := some "2023-08-01", bufferKm := none }
      = some "Missing required parameters" := by
  refine ⟨?_, ?_, ?_, by decide⟩
  · cases hcond : (numFalsy b.latitude || numFalsy b.longitude
        || strFalsy b.preFireDate || strFalsy b.postFireDate) <;>
      simp [validateParams, hcond]
  · simp [validateParams, numFalsy]
  · simp [validateParams, numFalsy]

end Wildfire
